import Mathlib

/-!
Verification of the federated-learning core of the FederatedStreamAPI
repository (`src/api/federado.py`, `src/api/models.py`, `src/api/main.py`).

Embedding conventions:
* Python floats are modelled as exact rationals (`ℚ`); the spec's
  "within floating tolerance" statements become exact statements.
* Python dicts with string keys are modelled as association lists in
  insertion order (`List (String × _)`); lookup takes the first match,
  which agrees with dicts because keys are unique in every program path.
* Python values stored in a model's `parametros` dict are modelled by the
  inductive type `PVal` (number, string, or list).
* Fallible numpy/dict operations (KeyError, TypeError, the ValueError that
  `np.sum(axis=0)` raises on ragged vector lists) are modelled with
  `Except String`.
* Laplace noise draws are modelled by an arbitrary stream `ℕ → ℚ`; the
  distribution of the draws is outside the embedding.
* Wall-clock timestamps produced by `datetime.now()` are abstracted to `""`.
-/

set_option autoImplicit false

/-- A Python value that can appear inside a contribution's parameter dict:
a number (int or float, both embedded into `ℚ`), a string, or a list. -/
inductive PVal where
  | num (x : ℚ)
  | str (s : String)
  | lst (xs : List PVal)

/-- Parameter dictionaries (`Dict[str, Any]`) in insertion order. -/
abbrev Params := List (String × PVal)

/-- First-match lookup in an association list, the model of `d[k]` /
`d.get(k)` for dicts with unique keys. -/
def dictGet {α : Type} (d : List (String × α)) (k : String) : Option α :=
  (d.find? (fun p => p.1 == k)).map (fun p => p.2)

/-- Model of `d.get(k, dflt)`. -/
def dictGetD {α : Type} (d : List (String × α)) (k : String) (dflt : α) : α :=
  (dictGet d k).getD dflt

/-- Model of `d.get(k, 0)` on a float-valued dict. -/
def qGetD (d : List (String × ℚ)) (k : String) (dflt : ℚ) : ℚ :=
  (dictGet d k).getD dflt

/-- Is this value a Python number (`isinstance(v, (int, float))`)? -/
def esNum : PVal → Bool
  | PVal.num _ => true
  | _ => false

/-- Is this value a list all of whose elements are numbers
(`isinstance(v, list) and all(isinstance(x, (int, float)) for x in v)`)? -/
def esListaNumerica : PVal → Bool
  | PVal.lst xs => xs.all esNum
  | _ => false

/-- Extract the rationals from a list of values, failing on the first
non-numeric element. -/
def asNums : List PVal → Option (List ℚ)
  | [] => some []
  | PVal.num x :: xs => (asNums xs).map (fun r => x :: r)
  | _ :: _ => none

/-- Extract a numeric vector from a value (`np.array(v)` on a flat numeric
list); fails on anything else. -/
def asNumList : PVal → Option (List ℚ)
  | PVal.lst xs => asNums xs
  | _ => none

/-! ## Strings: lowercasing, substring search, JSON serialization

These model `str.lower()`, Python's `in` operator on strings, and the
fragment of `json.dumps` exercised by the anonymization gate. -/

/-- Model of Python `str.lower()` (ASCII case folding, which is all the
blocklist check needs). -/
def pyLower (s : String) : String := ⟨s.data.map Char.toLower⟩

/-- Does `hay` start with `aguja`? -/
def empiezaCon : List Char → List Char → Bool
  | [], _ => true
  | _ :: _, [] => false
  | a :: as, b :: bs => a == b && empiezaCon as bs

/-- Does `aguja` occur contiguously inside `hay`? Model of Python's
`needle in hay` on strings. -/
def contiene (aguja : List Char) : List Char → Bool
  | [] => empiezaCon aguja []
  | hay@(_ :: resto) => empiezaCon aguja hay || contiene aguja resto

/-- Boolean substring test on strings. -/
def strContiene (hay aguja : String) : Bool := contiene aguja.data hay.data

/-- JSON string escaping (quote and backslash; control characters do not
occur in the strings this development manipulates). -/
def escapar (s : String) : String :=
  ⟨s.data.flatMap (fun c =>
    if c = '"' then ['\\', '"']
    else if c = '\\' then ['\\', '\\']
    else [c])⟩

/-- Rendering of a numeric literal by `json.dumps`. The exact digits are
irrelevant to every claim; what matters is that the rendering consists of
digits, `-` and `/` only, so it can never contain an alphabetic
blocklisted word — true of Python's digits/`.`/`e` renderings as well. -/
def ratRepr (q : ℚ) : String :=
  toString q.num ++ (if q.den = 1 then "" else "/" ++ toString q.den)

mutual

/-- Model of `json.dumps` on a single value. -/
def dumpsVal : PVal → String
  | PVal.num x => ratRepr x
  | PVal.str s => "\"" ++ escapar s ++ "\""
  | PVal.lst xs => "[" ++ dumpsElems xs ++ "]"

/-- Comma-separated rendering of list elements. -/
def dumpsElems : List PVal → String
  | [] => ""
  | [v] => dumpsVal v
  | v :: resto => dumpsVal v ++ ", " ++ dumpsElems resto

end

/-- Comma-separated rendering of the `"key": value` pairs of a dict. -/
def dumpsCampos : Params → String
  | [] => ""
  | [(k, v)] => "\"" ++ escapar k ++ "\": " ++ dumpsVal v
  | (k, v) :: resto => "\"" ++ escapar k ++ "\": " ++ dumpsVal v ++ ", " ++ dumpsCampos resto

/-- Model of `json.dumps(parametros, default=str)`. -/
def dumps (ps : Params) : String := "\x7b" ++ dumpsCampos ps ++ "\x7d"

/-! ## Data model (`src/api/models.py`) -/

/-- `ModeloFederado` (src/api/models.py): a locally trained model summary
submitted by one organization. `num_muestras_entrenamiento` is a Python
int, hence `ℤ`. -/
structure ModeloFederado where
  tipo_modelo : String
  parametros : Params
  giro_hash : String
  timestamp : String
  metricas_validacion : List (String × ℚ)
  version_algoritmo : String
  num_muestras_entrenamiento : ℤ

/-! ## Anonymization gate (`ProcesadorFederado.validar_anonimizacion`) -/

/-- The identifier blocklist of `validar_anonimizacion`
(src/api/federado.py lines 88-91). -/
def identificadoresProhibidos : List String :=
  ["empresa", "nombre", "direccion", "telefono", "email",
   "rfc", "razon_social", "contacto"]

/-- `ProcesadorFederado.validar_anonimizacion` (src/api/federado.py lines
68-101): hash length, blocklisted substring in the case-folded serialized
parameters, and minimum sample count, checked in that order. -/
def validarAnonimizacion (m : ModeloFederado) : Bool :=
  if m.giro_hash.length < 16 then false
  else if identificadoresProhibidos.any
      (fun ident => strContiene (pyLower (dumps m.parametros)) ident) then false
  else if m.num_muestras_entrenamiento < 50 then false
  else true

/-! ## Contributions and weights (`ProcesadorFederado`) -/

/-- The per-contribution record built by `procesar_modelo_anonimo`
(src/api/federado.py lines 144-151). -/
structure Contribucion where
  id : String
  timestamp : String
  giro_hash : String
  parametros : Params
  metricas : List (String × ℚ)
  num_muestras : ℤ

/-- `procesar_modelo_anonimo`'s construction of the stored contribution
dict from the submitted model. -/
def aContribucion (id_ : String) (m : ModeloFederado) : Contribucion :=
  { id := id_
    timestamp := m.timestamp
    giro_hash := m.giro_hash
    parametros := m.parametros
    metricas := m.metricas_validacion
    num_muestras := m.num_muestras_entrenamiento }

/-- Normalized aggregation weights: `pesos = np.array(pesos) / np.sum(pesos)`
with `pesos[i] = contrib["num_muestras"]` (src/api/federado.py lines
220-227, 329-330). Division by a zero total is never exercised by the
claims (they assume positive sample counts). -/
def pesosNormalizados (cs : List Contribucion) : List ℚ :=
  let total : ℚ := (cs.map (fun c => (c.num_muestras : ℚ))).sum
  cs.map (fun c => (c.num_muestras : ℚ) / total)

/-- `np.average(valores, weights=pesos)` = Σ vᵢwᵢ / Σ wᵢ. -/
def npAverage (valores pesos : List ℚ) : ℚ :=
  (List.zipWith (fun v w => v * w) valores pesos).sum / pesos.sum

/-- `np.sum(vectores, axis=0)`: elementwise sum of equal-length vectors;
a ragged list of vectors raises `ValueError` at array creation (numpy
rejects inhomogeneous nested sequences; the repository pins no older
numpy). -/
def sumarVectores (a b : List ℚ) : Except String (List ℚ) :=
  if a.length = b.length then Except.ok (List.zipWith (fun x y => x + y) a b)
  else Except.error "ValueError"

/-- Fold of `sumarVectores` over a list of vectors; the empty list is not
exercised by any caller (numpy would return the scalar 0.0 there). -/
def npSumAxis0 : List (List ℚ) → Except String (List ℚ)
  | [] => Except.error "ValueError"
  | [v] => Except.ok v
  | v :: resto => do
      let s ← npSumAxis0 resto
      sumarVectores v s

/-! ## Rounding and confidence (`_calcular_confianza`) -/

/-- Round-half-to-even on rationals, the idealization of Python's
built-in `round` used at src/api/federado.py line 425. -/
def redondeoBanquero (y : ℚ) : ℤ :=
  if y - (⌊y⌋ : ℚ) < 1/2 then ⌊y⌋
  else if 1/2 < y - (⌊y⌋ : ℚ) then ⌊y⌋ + 1
  else if ⌊y⌋ % 2 = 0 then ⌊y⌋ else ⌊y⌋ + 1

/-- Model of Python `round(x, 3)`. -/
def pyRound3 (x : ℚ) : ℚ := (redondeoBanquero (x * 1000) : ℚ) / 1000

/-- `confianza_base = min(0.9, 0.3 + (num_contribuciones - 3) * 0.1)`
(src/api/federado.py line 410). -/
def confianzaBase (n : ℕ) : ℚ := min (9/10) (3/10 + ((n : ℚ) - 3) * (1/10))

/-- The primary quality metric of one contribution: its `"r2"` entry if
present, else its `"accuracy"` entry (src/api/federado.py lines 416-419). -/
def metricaPrimaria (c : Contribucion) : Option ℚ :=
  match dictGet c.metricas "r2" with
  | some x => some x
  | none => dictGet c.metricas "accuracy"

/-- `metricas_promedio`, the quality values collected across all
contributions (src/api/federado.py lines 414-419). -/
def listaCalidad (cs : List Contribucion) : List ℚ :=
  cs.filterMap metricaPrimaria

/-- `ProcesadorFederado._calcular_confianza` (src/api/federado.py lines
393-425). The empty contribution list would raise `IndexError` in Python
and is unreachable (aggregation requires ≥ 3 contributions); it is
totalized to the base formula. -/
def calcularConfianza (cs : List Contribucion) : ℚ :=
  let base := confianzaBase cs.length
  match cs with
  | [] => pyRound3 base
  | c0 :: _ =>
    if c0.metricas.isEmpty then pyRound3 base
    else
      let calidad := listaCalidad cs
      if calidad.isEmpty then pyRound3 base
      else pyRound3 (base * (calidad.sum / (calidad.length : ℚ)))

/-! ## Aggregated models and metric aggregation -/

/-- `ResultadoAgregado` / the aggregated-model dict built by the three
`_agregar_modelo_*` strategies. -/
structure ModeloAgregado where
  tipo_modelo : String
  parametros_agregados : Params
  num_contribuciones : ℕ
  metricas_agregadas : List (String × ℚ)
  timestamp_agregacion : String
  confianza : ℚ
  version : String

/-- Weighted averaging of validation metrics over a fixed key list, with
`.get(metrica, 0)` substituting 0 for a missing metric (src/api/federado.py
lines 249-252, 300-303, 350-354). -/
def agregarMetricasGen (cs : List Contribucion) (pesos : List ℚ)
    (claves : List String) : List (String × ℚ) :=
  claves.map (fun k => (k, npAverage (cs.map (fun c => qGetD c.metricas k 0)) pesos))

/-! ## Linear-style aggregation (`_agregar_modelo_prediccion`) -/

/-- Extraction of each contribution's vector at `clave`
(`np.array(params[clave])`): a missing key raises `KeyError`, a
non-numeric-vector value raises at array arithmetic. -/
def extraerVectoresClave (clave : String) : List Contribucion → Except String (List (List ℚ))
  | [] => Except.ok []
  | c :: resto =>
    match dictGet c.parametros clave with
    | none => Except.error "KeyError"
    | some v =>
      match asNumList v with
      | none => Except.error "TypeError"
      | some xs => (extraerVectoresClave clave resto).map (fun r => xs :: r)

/-- The `"coeficientes"` branch (src/api/federado.py lines 233-237):
scale each contribution's coefficient vector by its weight and sum the
scaled vectors with `np.sum(..., axis=0)`. -/
def agregarCoeficientes (cs : List Contribucion) (pesos : List ℚ) : Except String (List ℚ) := do
  let vecs ← extraerVectoresClave "coeficientes" cs
  npSumAxis0 (List.zipWith (fun xs w => xs.map (fun x => x * w)) vecs pesos)

/-- Python `int(q)`: truncation toward zero. -/
def pyInt (q : ℚ) : ℤ := if 0 ≤ q then ⌊q⌋ else -⌊-q⌋

/-- The `"arboles"` branch (src/api/federado.py lines 240-246): pool
`max(1, int(len(arboles_i) * w_i))` leading tree descriptors from each
contribution. A missing key raises `KeyError`; a non-list value is
modelled as `TypeError`. -/
def agregarArbolesAux : List (Contribucion × ℚ) → Except String (List PVal)
  | [] => Except.ok []
  | (c, w) :: resto =>
    match dictGet c.parametros "arboles" with
    | none => Except.error "KeyError"
    | some (PVal.lst xs) =>
      let n := max 1 (pyInt ((xs.length : ℚ) * w))
      (agregarArbolesAux resto).map (fun r => xs.take n.toNat ++ r)
    | some _ => Except.error "TypeError"

/-- `ProcesadorFederado._agregar_modelo_prediccion` (src/api/federado.py
lines 200-262). An empty contribution list raises `IndexError` at
`todos_parametros[0]`. -/
def agregarModeloPrediccion (cs : List Contribucion) : Except String ModeloAgregado :=
  match cs with
  | [] => Except.error "IndexError"
  | c0 :: _ => do
    let pesos := pesosNormalizados cs
    let pa1 ←
      if (dictGet c0.parametros "coeficientes").isSome then
        (agregarCoeficientes cs pesos).map
          (fun v => [("coeficientes", PVal.lst (v.map PVal.num))])
      else pure []
    let pa2 ←
      if (dictGet c0.parametros "arboles").isSome then
        (agregarArbolesAux (cs.zip pesos)).map (fun a => [("arboles", PVal.lst a)])
      else pure []
    pure { tipo_modelo := "prediccion_demanda"
           parametros_agregados := pa1 ++ pa2
           num_contribuciones := cs.length
           metricas_agregadas := agregarMetricasGen cs pesos ["mse", "r2", "mae"]
           timestamp_agregacion := ""
           confianza := calcularConfianza cs
           version := "1.0" }

/-! ## Classification aggregation (`_agregar_modelo_clasificacion`) -/

/-- A rectangular all-numeric matrix, as `np.array` accepts for
`matriz_confusion`; ragged or non-numeric nestings raise at creation. -/
def asNumMatrix : PVal → Option (List (List ℚ))
  | PVal.lst filas =>
    match filas.mapM asNumList with
    | none => none
    | some m =>
      match m with
      | [] => some []
      | f :: resto => if resto.all (fun g => g.length == f.length) then some m else none
  | _ => none

/-- Extraction of each contribution's confusion matrix. -/
def extraerMatrices (clave : String) : List Contribucion → Except String (List (List (List ℚ)))
  | [] => Except.ok []
  | c :: resto =>
    match dictGet c.parametros clave with
    | none => Except.error "KeyError"
    | some v =>
      match asNumMatrix v with
      | none => Except.error "ValueError"
      | some m => (extraerMatrices clave resto).map (fun r => m :: r)

/-- Elementwise sum of two matrices of identical shape. -/
def sumarMatrices (a b : List (List ℚ)) : Except String (List (List ℚ)) :=
  if a.length = b.length then
    (List.zipWith sumarVectores a b).mapM id
  else Except.error "ValueError"

/-- `np.sum` over a list of matrices. -/
def npSumMatrices : List (List (List ℚ)) → Except String (List (List ℚ))
  | [] => Except.error "ValueError"
  | [m] => Except.ok m
  | m :: resto => do
      let s ← npSumMatrices resto
      sumarMatrices m s

/-- `ProcesadorFederado._agregar_modelo_clasificacion` (src/api/federado.py
lines 264-313). -/
def agregarModeloClasificacion (cs : List Contribucion) : Except String ModeloAgregado :=
  match cs with
  | [] => Except.error "IndexError"
  | c0 :: _ => do
    let pesos := pesosNormalizados cs
    let pa1 ←
      if (dictGet c0.parametros "matriz_confusion").isSome then do
        let ms ← extraerMatrices "matriz_confusion" cs
        let s ← npSumMatrices
          (List.zipWith (fun m w => m.map (fun fila => fila.map (fun x => x * w))) ms pesos)
        pure [("matriz_confusion", PVal.lst (s.map (fun fila => PVal.lst (fila.map PVal.num))))]
      else pure []
    let pa2 ←
      if (dictGet c0.parametros "probabilidades_clase").isSome then do
        let vecs ← extraerVectoresClave "probabilidades_clase" cs
        let s ← npSumAxis0 (List.zipWith (fun xs w => xs.map (fun x => x * w)) vecs pesos)
        pure [("probabilidades_clase", PVal.lst (s.map PVal.num))]
      else pure []
    pure { tipo_modelo := "clasificacion_viajero"
           parametros_agregados := pa1 ++ pa2
           num_contribuciones := cs.length
           metricas_agregadas := agregarMetricasGen cs pesos ["accuracy", "precision", "recall", "f1"]
           timestamp_agregacion := ""
           confianza := calcularConfianza cs
           version := "1.0" }

/-! ## Generic fallback aggregation (`_agregar_modelo_generico`) -/

/-- The scalar values fed to `np.average` for one key:
`[c["parametros"].get(clave, 0) for c in contribuciones]`; a non-numeric
present value makes the numpy average raise. -/
def listaNums : List PVal → Except String (List ℚ)
  | [] => Except.ok []
  | PVal.num x :: xs => (listaNums xs).map (fun r => x :: r)
  | _ :: _ => Except.error "TypeError"

/-- The weighted vectors collected for one vector-valued key
(src/api/federado.py lines 341-345): `np.array(c["parametros"].get(clave,
[]))`, skipping length-0 arrays, scaling the rest by the contribution's
weight. A value that is not a list raises (`len()` of an unsized object);
a list with non-numeric entries raises at the multiplication. -/
def vectoresPonderados (clave : String) : List (Contribucion × ℚ) → Except String (List (List ℚ))
  | [] => Except.ok []
  | (c, w) :: resto =>
    match asNumList (dictGetD c.parametros clave (PVal.lst [])) with
    | none => Except.error "TypeError"
    | some xs =>
      if xs.isEmpty then vectoresPonderados clave resto
      else (vectoresPonderados clave resto).map (fun r => (xs.map (fun x => x * w)) :: r)

/-- The parameter-aggregation loop of `_agregar_modelo_generico`
(src/api/federado.py lines 336-347), iterating over the first
contribution's keys in insertion order. -/
def agregarParamsGenericos (cs : List Contribucion) (pesos : List ℚ) :
    Params → Except String Params
  | [] => Except.ok []
  | (k, PVal.num _) :: resto => do
    let vals ← listaNums (cs.map (fun c => dictGetD c.parametros k (PVal.num 0)))
    let r ← agregarParamsGenericos cs pesos resto
    pure ((k, PVal.num (npAverage vals pesos)) :: r)
  | (k, PVal.lst xs) :: resto =>
    if xs.all esNum then do
      let arrays ← vectoresPonderados k (cs.zip pesos)
      if arrays.isEmpty then agregarParamsGenericos cs pesos resto
      else do
        let s ← npSumAxis0 arrays
        let r ← agregarParamsGenericos cs pesos resto
        pure ((k, PVal.lst (s.map PVal.num)) :: r)
    else agregarParamsGenericos cs pesos resto
  | (_, _) :: resto => agregarParamsGenericos cs pesos resto

/-- `ProcesadorFederado._agregar_modelo_generico` (src/api/federado.py
lines 315-364). -/
def agregarModeloGenerico (cs : List Contribucion) : Except String ModeloAgregado :=
  match cs with
  | [] => Except.error "IndexError"
  | c0 :: _ => do
    let pesos := pesosNormalizados cs
    let pa ← agregarParamsGenericos cs pesos c0.parametros
    pure { tipo_modelo := "generico"
           parametros_agregados := pa
           num_contribuciones := cs.length
           metricas_agregadas :=
             if c0.metricas.isEmpty then []
             else agregarMetricasGen cs pesos (c0.metricas.map (fun p => p.1))
           timestamp_agregacion := ""
           confianza := calcularConfianza cs
           version := "1.0" }

/-- Strategy dispatch on the model type (src/api/federado.py lines 183-188). -/
def agregarModelo (tipo : String) (cs : List Contribucion) : Except String ModeloAgregado :=
  if tipo = "prediccion_demanda" then agregarModeloPrediccion cs
  else if tipo = "clasificacion_viajero" then agregarModeloClasificacion cs
  else agregarModeloGenerico cs

/-! ## Differential-privacy noise (`_aplicar_ruido_diferencial`) -/

/-- One Laplace draw per element of a numeric vector
(`np.random.laplace(0, 1/epsilon, size=len(valor))`), with the draw
stream indexed from `i`. Non-numeric elements cannot occur under the
`all esNum` guard; they are left unchanged. -/
def agregarRuidoVec (ruido : ℕ → ℚ) : ℕ → List PVal → List PVal
  | _, [] => []
  | i, PVal.num x :: xs => PVal.num (x + ruido i) :: agregarRuidoVec ruido (i + 1) xs
  | i, v :: xs => v :: agregarRuidoVec ruido (i + 1) xs

/-- The mutation loop of `_aplicar_ruido_diferencial` (src/api/federado.py
lines 383-389): one draw per numeric scalar, one draw per element of each
all-numeric list, every other entry untouched. `i` counts the draws
already consumed. -/
def aplicarRuidoParams (ruido : ℕ → ℚ) : ℕ → Params → Params
  | _, [] => []
  | i, (k, PVal.num x) :: resto =>
    (k, PVal.num (x + ruido i)) :: aplicarRuidoParams ruido (i + 1) resto
  | i, (k, PVal.lst xs) :: resto =>
    if xs.all esNum then
      (k, PVal.lst (agregarRuidoVec ruido i xs)) :: aplicarRuidoParams ruido (i + xs.length) resto
    else (k, PVal.lst xs) :: aplicarRuidoParams ruido i resto
  | i, (k, v) :: resto => (k, v) :: aplicarRuidoParams ruido i resto

/-- `ProcesadorFederado._aplicar_ruido_diferencial` (src/api/federado.py
lines 366-391): perturbs only `parametros_agregados`. -/
def aplicarRuidoDiferencial (ruido : ℕ → ℚ) (m : ModeloAgregado) : ModeloAgregado :=
  { m with parametros_agregados := aplicarRuidoParams ruido 0 m.parametros_agregados }

/-! ## Per-model-type contribution state (`procesar_modelo_anonimo`) -/

/-- The per-model-type slice of `ProcesadorFederado`'s mutable state:
`self.contribuciones[tipo]` and `self.modelos_activos[tipo]`. -/
structure EstadoTipo where
  contribuciones : List Contribucion
  modeloActivo : Option ModeloAgregado

/-- The server's initial state for a model type: no contributions, no
aggregated snapshot. -/
def estadoInicial : EstadoTipo := { contribuciones := [], modeloActivo := none }

/-- One asynchronous processing step: the submitted model together with
its generated contribution id and the Laplace draw stream consumed by the
noise pass of the aggregation it may trigger. -/
structure Paso where
  modelo : ModeloFederado
  contribucion_id : String
  ruido : ℕ → ℚ

/-- `ProcesadorFederado.procesar_modelo_anonimo` (src/api/federado.py
lines 128-166) restricted to one model type: append the contribution;
once `len ≥ min_contribuciones = 3`, `_agregar_modelo` rebuilds the
aggregate from the full list, applies the noise pass
(`ruido_diferencial` is `True` by default), and replaces
`modelos_activos[tipo]`. If the aggregation raises, the exception
propagates: the contribution stays appended and the old snapshot stays. -/
def procesarModeloAnonimo (st : EstadoTipo) (p : Paso) : EstadoTipo :=
  let contribs := st.contribuciones ++ [aContribucion p.contribucion_id p.modelo]
  if 3 ≤ contribs.length then
    match agregarModelo p.modelo.tipo_modelo contribs with
    | Except.ok m =>
      { contribuciones := contribs, modeloActivo := some (aplicarRuidoDiferencial p.ruido m) }
    | Except.error _ => { contribuciones := contribs, modeloActivo := st.modeloActivo }
  else { contribuciones := contribs, modeloActivo := st.modeloActivo }

/-- Run a sequence of processing steps from a given state. -/
def correr (st : EstadoTipo) : List Paso → EstadoTipo
  | [] => st
  | p :: ps => correr (procesarModeloAnonimo st p) ps

/-- `ProcesadorFederado.obtener_modelo_agregado` (src/api/federado.py
lines 427-454): the latest snapshot, or `None` (the not-found signal,
mapped to HTTP 404 by `main.py`). -/
def obtenerModeloAgregado (st : EstadoTipo) : Option ModeloAgregado :=
  st.modeloActivo

/-! ## HTTP submission endpoint (`main.enviar_modelo_federado`) -/

/-- A FastAPI `HTTPException`, carrying a status code and a detail string. -/
structure HttpError where
  status : ℕ
  detail : String

/-- `str(e)` on a starlette `HTTPException`. -/
def strHttpError (e : HttpError) : String := toString e.status ++ ": " ++ e.detail

/-- The success body returned by `/federated/submit-model`. -/
structure RespuestaEnvio where
  status : String
  contribucion_id : String
  mensaje : String

/-- The `try` body of `enviar_modelo_federado` (src/api/main.py lines
116-149): reject with a 400 `HTTPException` when the anonymization gate
fails, otherwise acknowledge and schedule the background processing task.
The generated contribution id is passed in as an opaque argument.
The second component lists the scheduled `procesar_modelo_anonimo`
tasks — an empty list means the contribution is neither stored nor
aggregated. -/
def enviarCuerpo (m : ModeloFederado) (id_ : String) :
    Except HttpError (RespuestaEnvio × List (ModeloFederado × String)) :=
  if validarAnonimizacion m = false then
    Except.error { status := 400
                   detail := "El modelo no cumple con los requisitos de anonimización" }
  else
    Except.ok ({ status := "recibido"
                 contribucion_id := id_
                 mensaje := "Modelo recibido y procesándose de forma segura" },
               [(m, id_)])

/-- `enviar_modelo_federado` with its blanket `except Exception` clause
(src/api/main.py lines 151-152): any exception from the body — including
the 400 `HTTPException` itself — is re-raised as a 500. -/
def enviarModeloFederado (m : ModeloFederado) (id_ : String) :
    Except HttpError RespuestaEnvio × List (ModeloFederado × String) :=
  match enviarCuerpo m id_ with
  | Except.ok (r, ts) => (Except.ok r, ts)
  | Except.error e =>
    (Except.error { status := 500, detail := "Error procesando modelo: " ++ strHttpError e }, [])

/-- Did an `Except` computation succeed? -/
def esOk {ε α : Type} : Except ε α → Bool
  | Except.ok _ => true
  | Except.error _ => false

/-! ## String lemmas for the anonymization gate -/

/-- A match at the start survives appending a suffix. -/
lemma empiezaCon_append (a h t : List Char) (hm : empiezaCon a h = true) :
    empiezaCon a (h ++ t) = true := by
  induction a generalizing h with
  | nil => simp [empiezaCon]
  | cons c cs ih =>
    cases h with
    | nil => simp [empiezaCon] at hm
    | cons d ds =>
      simp only [empiezaCon, Bool.and_eq_true] at hm
      simp only [List.cons_append, empiezaCon, Bool.and_eq_true]
      exact ⟨hm.1, ih ds hm.2⟩

/-- The empty needle occurs everywhere. -/
lemma contiene_nil (t : List Char) : contiene [] t = true := by
  cases t with
  | nil => rfl
  | cons x xs => simp [contiene, empiezaCon]

/-- An occurrence inside a prefix survives appending a suffix. -/
lemma contiene_prefijo (a h t : List Char) (hm : contiene a h = true) :
    contiene a (h ++ t) = true := by
  induction h with
  | nil =>
    cases a with
    | nil => simpa using contiene_nil t
    | cons c cs => simp [contiene, empiezaCon] at hm
  | cons d ds ih =>
    simp only [contiene, Bool.or_eq_true] at hm
    rcases hm with hm | hm
    · simp only [List.cons_append, contiene, Bool.or_eq_true]
      left
      have := empiezaCon_append a (d :: ds) t hm
      simpa using this
    · simp only [List.cons_append, contiene, Bool.or_eq_true]
      exact Or.inr (ih hm)

/-- The serialized form of a single-key parameter dict, split as a
character-list concatenation whose head is the concrete serialized key. -/
lemma dumps_unico_data (k : String) (v : PVal) :
    (dumps [(k, v)]).data
      = ("\x7b".data ++ "\"".data ++ (escapar k).data ++ "\": ".data)
        ++ ((dumpsVal v).data ++ "\x7d".data) := by
  simp [dumps, dumpsCampos, String.data_append]

/-- Any parameter dict whose sole key is `"nombre_cliente"` serializes, after
case folding, to a string containing the blocklisted word `"nombre"`. -/
lemma nombre_en_dumps (v : PVal) :
    strContiene (pyLower (dumps [("nombre_cliente", v)])) "nombre" = true := by
  show contiene "nombre".data ((dumps [("nombre_cliente", v)]).data.map Char.toLower) = true
  rw [dumps_unico_data, List.map_append]
  apply contiene_prefijo
  decide

/-- C1: the anonymization gate rejects a contribution if and only if the
segment hash is shorter than 16 characters, the case-folded serialized
parameters contain a blocklisted identifying substring, or the training
sample count is below the server minimum of 50; in particular a parameter
dict with key `"nombre_cliente"` is rejected regardless of its numeric
value, and a failing contribution is answered with an error and never
scheduled for storage or aggregation. -/
theorem c1_validacion_anonimizacion (m : ModeloFederado) (id_ : String) :
    (validarAnonimizacion m = false ↔
      (m.giro_hash.length < 16 ∨
        (∃ ident ∈ identificadoresProhibidos,
          strContiene (pyLower (dumps m.parametros)) ident = true) ∨
        m.num_muestras_entrenamiento < 50))
    ∧ (∀ v : ℚ,
        validarAnonimizacion { m with parametros := [("nombre_cliente", PVal.num v)] } = false)
    ∧ (validarAnonimizacion m = false →
        (enviarModeloFederado m id_).2 = [] ∧ esOk (enviarModeloFederado m id_).1 = false) := by
  refine ⟨?_, ?_, ?_⟩
  · unfold validarAnonimizacion
    split_ifs with h1 h2 h3
    · simp [h1]
    · simp only [List.any_eq_true] at h2
      simp [h2]
    · simp [h3]
    · simp only [List.any_eq_true] at h2
      constructor
      · intro hc
        exact absurd hc (by simp)
      · rintro (hc | hc | hc)
        · exact absurd hc h1
        · exact absurd hc (by simpa using h2)
        · exact absurd hc h3
  · intro v
    unfold validarAnonimizacion
    have hb : (identificadoresProhibidos.any (fun ident =>
        strContiene (pyLower (dumps [("nombre_cliente", PVal.num v)])) ident)) = true := by
      simp only [List.any_eq_true]
      exact ⟨"nombre", by simp [identificadoresProhibidos], nombre_en_dumps (PVal.num v)⟩
    simp [hb]
  · intro hv
    simp [enviarModeloFederado, enviarCuerpo, hv, esOk]

/-- Witness for C1 at a concrete rejected contribution. -/
theorem c1_testigo :
    validarAnonimizacion
      { tipo_modelo := "optimizacion_precios"
        parametros := [("nombre_cliente", PVal.num 5)]
        giro_hash := "abcdef1234567890"
        timestamp := "t"
        metricas_validacion := []
        version_algoritmo := "1.0"
        num_muestras_entrenamiento := 100 } = false
    ∧ (enviarModeloFederado
        { tipo_modelo := "optimizacion_precios"
          parametros := [("nombre_cliente", PVal.num 5)]
          giro_hash := "abcdef1234567890"
          timestamp := "t"
          metricas_validacion := []
          version_algoritmo := "1.0"
          num_muestras_entrenamiento := 100 } "id1").2 = [] := by
  have h := c1_validacion_anonimizacion
    { tipo_modelo := "optimizacion_precios"
      parametros := [("nombre_cliente", PVal.num 5)]
      giro_hash := "abcdef1234567890"
      timestamp := "t"
      metricas_validacion := []
      version_algoritmo := "1.0"
      num_muestras_entrenamiento := 100 } "id1"
  have hv : validarAnonimizacion
      { tipo_modelo := "optimizacion_precios"
        parametros := [("nombre_cliente", PVal.num 5)]
        giro_hash := "abcdef1234567890"
        timestamp := "t"
        metricas_validacion := []
        version_algoritmo := "1.0"
        num_muestras_entrenamiento := 100 } = false := by rfl
  exact ⟨hv, (h.2.2 hv).1⟩

/-- C9: when the anonymization gate fails, the submit-model endpoint
answers HTTP 500, not 400 — the 400 raised inside the handler is caught
by the handler's own blanket `except` clause and re-wrapped as a 500
"Error procesando modelo" response — and no error response of the
endpoint ever carries status 400. -/
theorem c9_error_500 (m : ModeloFederado) (id_ : String) :
    (validarAnonimizacion m = false →
      (enviarModeloFederado m id_).1 = Except.error
        { status := 500
          detail := "Error procesando modelo: 400: El modelo no cumple con los requisitos de anonimización" })
    ∧ (∀ e : HttpError, (enviarModeloFederado m id_).1 = Except.error e → e.status = 500) := by
  constructor
  · intro hv
    simp only [enviarModeloFederado, enviarCuerpo, hv, strHttpError, if_true]
    rfl
  · intro e he
    by_cases hv : validarAnonimizacion m = false
    · simp [enviarModeloFederado, enviarCuerpo, hv, strHttpError] at he
      rw [← he]
    · simp [enviarModeloFederado, enviarCuerpo, hv] at he

/-- Witness for C9 at a concrete contribution rejected by the gate. -/
theorem c9_testigo :
    (enviarModeloFederado
      { tipo_modelo := "optimizacion_precios"
        parametros := [("coef", PVal.num 1)]
        giro_hash := "abcdef1234567890"
        timestamp := "t"
        metricas_validacion := []
        version_algoritmo := "1.0"
        num_muestras_entrenamiento := 10 } "id2").1 = Except.error
      { status := 500
        detail := "Error procesando modelo: 400: El modelo no cumple con los requisitos de anonimización" } :=
  (c9_error_500
    { tipo_modelo := "optimizacion_precios"
      parametros := [("coef", PVal.num 1)]
      giro_hash := "abcdef1234567890"
      timestamp := "t"
      metricas_validacion := []
      version_algoritmo := "1.0"
      num_muestras_entrenamiento := 10 } "id2").1 (by rfl)

/-! ## Confidence lemmas (C3, C10) -/

/-- The multiplicative quality adjustment actually applied by
`_calcular_confianza`: 1 when the first contribution's metrics dict is
empty or no contribution has an `"r2"`/`"accuracy"` entry, else the
unweighted mean of the collected quality values. -/
def factorCalidad (cs : List Contribucion) : ℚ :=
  match cs with
  | [] => 1
  | c0 :: _ =>
    if c0.metricas.isEmpty then 1
    else
      if (listaCalidad cs).isEmpty then 1
      else (listaCalidad cs).sum / ((listaCalidad cs).length : ℚ)

/-- `_calcular_confianza` computes exactly base × quality factor, rounded. -/
lemma calcularConfianza_eq (cs : List Contribucion) :
    calcularConfianza cs = pyRound3 (confianzaBase cs.length * factorCalidad cs) := by
  unfold calcularConfianza factorCalidad
  cases cs with
  | nil => simp
  | cons c0 resto =>
    by_cases h0 : c0.metricas.isEmpty
    · simp [h0]
    · by_cases h1 : (listaCalidad (c0 :: resto)).isEmpty
      · simp [h0, h1]
      · simp [h0, h1]

/-- Round-half-to-even stays between the floor and the floor plus one. -/
lemma redondeoBanquero_cotas (x : ℚ) :
    ⌊x⌋ ≤ redondeoBanquero x ∧ redondeoBanquero x ≤ ⌊x⌋ + 1 := by
  unfold redondeoBanquero
  split_ifs <;> omega

/-- Round-half-to-even is monotone. -/
lemma redondeoBanquero_mono {x y : ℚ} (h : x ≤ y) :
    redondeoBanquero x ≤ redondeoBanquero y := by
  have hf := Int.floor_mono h
  rcases lt_or_eq_of_le hf with hlt | heq
  · have h1 := (redondeoBanquero_cotas x).2
    have h2 := (redondeoBanquero_cotas y).1
    omega
  · unfold redondeoBanquero
    rw [← heq]
    split_ifs <;> first | omega | linarith

/-- `round(·, 3)` is monotone. -/
lemma pyRound3_mono {x y : ℚ} (h : x ≤ y) : pyRound3 x ≤ pyRound3 y := by
  unfold pyRound3
  have h1 : redondeoBanquero (x * 1000) ≤ redondeoBanquero (y * 1000) :=
    redondeoBanquero_mono (by linarith)
  have h2 : (redondeoBanquero (x * 1000) : ℚ) ≤ (redondeoBanquero (y * 1000) : ℚ) := by
    exact_mod_cast h1
  linarith

/-- `round(0, 3) = 0`. -/
lemma pyRound3_cero : pyRound3 0 = 0 := by
  norm_num [pyRound3, redondeoBanquero]

/-- `round(0.9, 3) = 0.9`. -/
lemma pyRound3_nueve_decimos : pyRound3 (9/10) = 9/10 := by
  norm_num [pyRound3, redondeoBanquero]

/-- The base-confidence formula is monotone in the contribution count. -/
lemma confianzaBase_mono {m n : ℕ} (h : m ≤ n) : confianzaBase m ≤ confianzaBase n := by
  unfold confianzaBase
  have : (m : ℚ) ≤ (n : ℚ) := by exact_mod_cast h
  apply min_le_min le_rfl
  linarith

/-- For at least 3 contributions the base confidence lies in [0.3, 0.9]. -/
lemma confianzaBase_cotas {n : ℕ} (h : 3 ≤ n) :
    3/10 ≤ confianzaBase n ∧ confianzaBase n ≤ 9/10 := by
  unfold confianzaBase
  have : (3 : ℚ) ≤ (n : ℚ) := by exact_mod_cast h
  constructor
  · apply le_min
    · norm_num
    · linarith
  · exact min_le_left _ _

/-- If every collected quality value lies in [0, 1] then so does the
quality factor. -/
lemma factorCalidad_cotas (cs : List Contribucion)
    (hq : ∀ q ∈ listaCalidad cs, 0 ≤ q ∧ q ≤ 1) :
    0 ≤ factorCalidad cs ∧ factorCalidad cs ≤ 1 := by
  cases cs with
  | nil => norm_num [factorCalidad]
  | cons c0 resto =>
    simp only [factorCalidad]
    by_cases h0 : c0.metricas.isEmpty
    · simp [h0]
    · by_cases h1 : (listaCalidad (c0 :: resto)).isEmpty
      · simp [h0, h1]
      · rw [if_neg h0, if_neg h1]
        have hlen : 0 < (listaCalidad (c0 :: resto)).length := by
          cases hL : listaCalidad (c0 :: resto) with
          | nil => rw [hL] at h1; simp at h1
          | cons a l => simp [hL]
        have hlenq : (0 : ℚ) < ((listaCalidad (c0 :: resto)).length : ℚ) := by
          exact_mod_cast hlen
        constructor
        · apply div_nonneg _ (le_of_lt hlenq)
          exact List.sum_nonneg (fun q hqm => (hq q hqm).1)
        · rw [div_le_one hlenq]
          have := List.sum_le_card_nsmul (listaCalidad (c0 :: resto)) 1
            (fun q hqm => (hq q hqm).2)
          simpa using this

/-- The contribution used in the C3 counterexample: a validated-size
contribution reporting the (legal) regression score r² = −1. -/
def contribucionC3 : Contribucion :=
  { id := "x", timestamp := "t", giro_hash := "abcdef1234567890"
    parametros := [("coef", PVal.num 1)], metricas := [("r2", -1)], num_muestras := 100 }

/-- Three contributions whose quality metric is −1. -/
def ejemploC3 : List Contribucion := [contribucionC3, contribucionC3, contribucionC3]

/-- C3 is false as stated: with three contributions all reporting r² = −1
the confidence is −0.3, which lies outside [0, 1] — the code never clamps
the product to [0, 1]. -/
theorem c3_contraejemplo :
    calcularConfianza ejemploC3 = -(3/10) ∧ calcularConfianza ejemploC3 < 0 := by
  have h : calcularConfianza ejemploC3 = -(3/10) := by
    norm_num [calcularConfianza, ejemploC3, contribucionC3, confianzaBase, listaCalidad,
      metricaPrimaria, dictGet, List.find?, List.filterMap, pyRound3, redondeoBanquero]
  exact ⟨h, by rw [h]; norm_num⟩

/-- C3 (amended): the confidence equals the base formula
min(0.9, 0.3 + (n − 3)·0.1) times the quality factor (the unweighted mean
of the contributions' primary quality metrics when the gate on the first
contribution passes, 1 otherwise), rounded to 3 decimals, with NO
clamping; the score lies in [0, 1] whenever every collected quality value
lies in [0, 1], and for n ≥ 3 it is non-decreasing in the contribution
count whenever the quality factor is fixed and non-negative. -/
theorem c3_confianza_enmendada :
    (∀ cs : List Contribucion,
      calcularConfianza cs = pyRound3 (confianzaBase cs.length * factorCalidad cs))
    ∧ (∀ cs : List Contribucion, 3 ≤ cs.length →
        (∀ q ∈ listaCalidad cs, 0 ≤ q ∧ q ≤ 1) →
        0 ≤ calcularConfianza cs ∧ calcularConfianza cs ≤ 1)
    ∧ (∀ cs cs' : List Contribucion, 3 ≤ cs.length → cs.length ≤ cs'.length →
        factorCalidad cs = factorCalidad cs' → 0 ≤ factorCalidad cs →
        calcularConfianza cs ≤ calcularConfianza cs') := by
  refine ⟨calcularConfianza_eq, ?_, ?_⟩
  · intro cs h3 hq
    rw [calcularConfianza_eq]
    obtain ⟨hb1, hb2⟩ := confianzaBase_cotas h3
    obtain ⟨hf1, hf2⟩ := factorCalidad_cotas cs hq
    constructor
    · have h0 : (0 : ℚ) ≤ confianzaBase cs.length * factorCalidad cs := by nlinarith
      calc (0 : ℚ) = pyRound3 0 := pyRound3_cero.symm
        _ ≤ _ := pyRound3_mono h0
    · have h9 : confianzaBase cs.length * factorCalidad cs ≤ 9/10 := by nlinarith
      calc pyRound3 (confianzaBase cs.length * factorCalidad cs)
          ≤ pyRound3 (9/10) := pyRound3_mono h9
        _ = 9/10 := pyRound3_nueve_decimos
        _ ≤ 1 := by norm_num
  · intro cs cs' h3 hlen hfac hpos
    rw [calcularConfianza_eq, calcularConfianza_eq, ← hfac]
    exact pyRound3_mono
      (mul_le_mul_of_nonneg_right (confianzaBase_mono hlen) hpos)

/-- A contribution with a perfect integer quality score, for witnesses. -/
def contribucionCal : Contribucion :=
  { id := "x", timestamp := "t", giro_hash := "abcdef1234567890"
    parametros := [("coef", PVal.num 1)], metricas := [("r2", 1)], num_muestras := 100 }

/-- Witness for the amended C3 at three concrete contributions with
quality 1. -/
theorem c3_testigo :
    0 ≤ calcularConfianza [contribucionCal, contribucionCal, contribucionCal]
    ∧ calcularConfianza [contribucionCal, contribucionCal, contribucionCal] ≤ 1 :=
  c3_confianza_enmendada.2.1 [contribucionCal, contribucionCal, contribucionCal]
    (by decide) (by decide)

/-- C10: the quality adjustment of the confidence score is gated solely
on the first stored contribution — with an empty first metrics dict the
score is the base formula alone, whatever the later contributions report —
and, when applied, it is the unweighted arithmetic mean over the collected
primary metrics, where each contribution contributes its `"r2"` entry when
present and its `"accuracy"` entry only otherwise. -/
theorem c10_ajuste_calidad :
    (∀ (c0 : Contribucion) (resto : List Contribucion), c0.metricas = [] →
      calcularConfianza (c0 :: resto) = pyRound3 (confianzaBase (c0 :: resto).length))
    ∧ (∀ (c0 : Contribucion) (resto : List Contribucion),
        c0.metricas ≠ [] → listaCalidad (c0 :: resto) ≠ [] →
        calcularConfianza (c0 :: resto)
          = pyRound3 (confianzaBase (c0 :: resto).length *
              ((listaCalidad (c0 :: resto)).sum / ((listaCalidad (c0 :: resto)).length : ℚ))))
    ∧ (∀ (c : Contribucion) (x : ℚ), dictGet c.metricas "r2" = some x →
        metricaPrimaria c = some x)
    ∧ (∀ c : Contribucion, dictGet c.metricas "r2" = none →
        metricaPrimaria c = dictGet c.metricas "accuracy") := by
  refine ⟨?_, ?_, ?_, ?_⟩
  · intro c0 resto h0
    have h0' : c0.metricas.isEmpty = true := by simp [h0]
    simp [calcularConfianza, h0']
  · intro c0 resto h0 h1
    have h0' : ¬c0.metricas.isEmpty = true := by simp [h0]
    have h1' : ¬(listaCalidad (c0 :: resto)).isEmpty = true := by simp [h1]
    simp [calcularConfianza, h0', h1']
  · intro c x hx
    simp [metricaPrimaria, hx]
  · intro c hx
    simp [metricaPrimaria, hx]

/-- Witness for C10: with an empty first metrics dict the confidence of
three contributions ignores the later quality reports. -/
theorem c10_testigo :
    calcularConfianza
      [{ id := "x", timestamp := "t", giro_hash := "abcdef1234567890"
         parametros := [("coef", PVal.num 1)], metricas := [], num_muestras := 100 },
       contribucionCal, contribucionCal]
      = pyRound3 (confianzaBase 3) :=
  c10_ajuste_calidad.1
    { id := "x", timestamp := "t", giro_hash := "abcdef1234567890"
      parametros := [("coef", PVal.num 1)], metricas := [], num_muestras := 100 }
    [contribucionCal, contribucionCal] (by rfl)

/-! ## Weight lemmas (C5, C6, C8) -/

/-- With positive sample counts the normalized weights sum to exactly 1. -/
lemma suma_pesos_uno {cs : List Contribucion}
    (hpos : ∀ c ∈ cs, 0 < c.num_muestras) (hne : cs ≠ []) :
    (pesosNormalizados cs).sum = 1 := by
  have hT : 0 < (cs.map (fun c => (c.num_muestras : ℚ))).sum := by
    apply List.sum_pos
    · intro x hx
      simp only [List.mem_map] at hx
      obtain ⟨c, hc, rfl⟩ := hx
      exact_mod_cast hpos c hc
    · simpa using hne
  unfold pesosNormalizados
  simp only [div_eq_mul_inv]
  rw [List.sum_map_mul_right]
  exact mul_inv_cancel₀ (ne_of_gt hT)

/-- C5: the aggregation weights are exactly each contribution's sample
count divided by the total sample count, and for any nonempty list of
contributions with positive sample counts they sum to 1. -/
theorem c5_pesos_suman_uno (cs : List Contribucion)
    (hpos : ∀ c ∈ cs, 0 < c.num_muestras) (hne : cs ≠ []) :
    pesosNormalizados cs
      = cs.map (fun c => (c.num_muestras : ℚ) / (cs.map (fun d => (d.num_muestras : ℚ))).sum)
    ∧ (pesosNormalizados cs).sum = 1 :=
  ⟨rfl, suma_pesos_uno hpos hne⟩

/-- The three contributions of the worked scenario in the spec:
sample counts 100, 200, 300, scalar parameter "coef" = 1, 2, 3. -/
def ejemploC6 : List Contribucion :=
  [{ id := "a", timestamp := "t", giro_hash := "abcdef1234567890"
     parametros := [("coef", PVal.num 1)], metricas := [], num_muestras := 100 },
   { id := "b", timestamp := "t", giro_hash := "abcdef1234567890"
     parametros := [("coef", PVal.num 2)], metricas := [], num_muestras := 200 },
   { id := "c", timestamp := "t", giro_hash := "abcdef1234567890"
     parametros := [("coef", PVal.num 3)], metricas := [], num_muestras := 300 }]

/-- Witness for C5 at the concrete sample counts 100, 200, 300. -/
theorem c5_testigo : (pesosNormalizados ejemploC6).sum = 1 :=
  (c5_pesos_suman_uno ejemploC6 (by decide) (by exact List.cons_ne_nil _ _)).2

/-- C6: on the concrete scenario — sample counts [100, 200, 300], scalar
parameter "coef" = 1, 2, 3 — the generic aggregation (before the noise
pass) derives the weights [1/6, 2/6, 3/6] and produces
coef = 1·(1/6) + 2·(2/6) + 3·(3/6) = 7/3. -/
theorem c6_escenario_concreto :
    pesosNormalizados ejemploC6 = [1/6, 2/6, 3/6]
    ∧ (agregarModeloGenerico ejemploC6).map (fun m => dictGet m.parametros_agregados "coef")
      = Except.ok (some (PVal.num (7/3))) := by
  constructor
  · norm_num [pesosNormalizados, ejemploC6]
  · norm_num [agregarModeloGenerico, ejemploC6, pesosNormalizados, agregarParamsGenericos,
      listaNums, npAverage, dictGetD, dictGet, calcularConfianza, agregarMetricasGen,
      Except.map, List.find?, bind, Except.bind, List.zipWith, pure, Except.pure]

/-- The scalar value a contribution actually feeds into the generic
weighted average for key `k`: its own entry when it is numeric, 0 when the
key is missing. -/
def valorEscalarO0 (c : Contribucion) (k : String) : ℚ :=
  match dictGet c.parametros k with
  | some (PVal.num x) => x
  | _ => 0

/-- Evaluating the `.get(clave, 0)` list of the generic scalar branch when
every present value is numeric. -/
lemma listaNums_de (k : String) (cs : List Contribucion)
    (h : ∀ c ∈ cs, dictGet c.parametros k = none
      ∨ ∃ x, dictGet c.parametros k = some (PVal.num x)) :
    listaNums (cs.map (fun c => dictGetD c.parametros k (PVal.num 0)))
      = Except.ok (cs.map (fun c => valorEscalarO0 c k)) := by
  induction cs with
  | nil => rfl
  | cons c resto ih =>
    have hres := ih (fun d hd => h d (List.mem_cons_of_mem _ hd))
    rcases h c (List.mem_cons_self _ _) with hc | ⟨x, hc⟩
    · have h1 : dictGetD c.parametros k (PVal.num 0) = PVal.num 0 := by
        simp [dictGetD, hc]
      have h2 : valorEscalarO0 c k = 0 := by
        simp [valorEscalarO0, hc]
      simp only [List.map_cons, h1, h2, listaNums, hres, Except.map]
    · have h1 : dictGetD c.parametros k (PVal.num 0) = PVal.num x := by
        simp [dictGetD, hc]
      have h2 : valorEscalarO0 c k = x := by
        simp [valorEscalarO0, hc]
      simp only [List.map_cons, h1, h2, listaNums, hres, Except.map]

/-- `np.average` with weights summing to 1 is the plain weighted sum. -/
lemma npAverage_pesos_uno (vals pesos : List ℚ) (h : pesos.sum = 1) :
    npAverage vals pesos = (List.zipWith (fun v w => v * w) vals pesos).sum := by
  unfold npAverage
  rw [h, div_one]

/-- C8: in the generic fallback, a contribution that lacks a scalar key of
the first contribution enters the weighted average as the value 0 with its
full sample-count weight — it is not skipped and the weights are not
renormalized over the contributions that define the key — and the same
0-substitution applies to every validation-metric key missing from a
contribution. -/
theorem c8_clave_faltante_cero
    (k : String) (v0 : ℚ) (c0 : Contribucion) (resto : List Contribucion)
    (h0 : c0.parametros = [(k, PVal.num v0)])
    (hnum : ∀ c ∈ resto, dictGet c.parametros k = none
      ∨ ∃ x, dictGet c.parametros k = some (PVal.num x))
    (hpos : ∀ c ∈ (c0 :: resto), 0 < c.num_muestras) :
    (agregarModeloGenerico (c0 :: resto)).map (fun m => m.parametros_agregados)
      = Except.ok [(k, PVal.num
          ((List.zipWith (fun c w => valorEscalarO0 c k * w)
            (c0 :: resto) (pesosNormalizados (c0 :: resto))).sum))]
    ∧ (agregarModeloGenerico (c0 :: resto)).map (fun m => m.metricas_agregadas)
      = Except.ok (if c0.metricas.isEmpty then []
          else c0.metricas.map (fun p => (p.1,
            (List.zipWith (fun c w => qGetD c.metricas p.1 0 * w)
              (c0 :: resto) (pesosNormalizados (c0 :: resto))).sum))) := by
  have hsum : (pesosNormalizados (c0 :: resto)).sum = 1 :=
    suma_pesos_uno hpos (List.cons_ne_nil _ _)
  have hall : ∀ c ∈ (c0 :: resto), dictGet c.parametros k = none
      ∨ ∃ x, dictGet c.parametros k = some (PVal.num x) := by
    intro c hc
    rcases List.mem_cons.1 hc with rfl | hc'
    · right
      exact ⟨v0, by simp [dictGet, h0]⟩
    · exact hnum c hc'
  have hln := listaNums_de k (c0 :: resto) hall
  have hnp : npAverage ((c0 :: resto).map (fun c => valorEscalarO0 c k))
        (pesosNormalizados (c0 :: resto))
      = (List.zipWith (fun c w => valorEscalarO0 c k * w)
          (c0 :: resto) (pesosNormalizados (c0 :: resto))).sum := by
    rw [npAverage_pesos_uno _ _ hsum, List.zipWith_map_left]
  have hpa : agregarParamsGenericos (c0 :: resto) (pesosNormalizados (c0 :: resto)) c0.parametros
      = Except.ok [(k, PVal.num
          ((List.zipWith (fun c w => valorEscalarO0 c k * w)
            (c0 :: resto) (pesosNormalizados (c0 :: resto))).sum))] := by
    rw [h0]
    simp only [agregarParamsGenericos, bind, Except.bind]
    rw [hln]
    simp only [hnp, pure, Except.pure]
  have hmet : ∀ claves : List String,
      agregarMetricasGen (c0 :: resto) (pesosNormalizados (c0 :: resto)) claves
        = claves.map (fun mk => (mk,
            (List.zipWith (fun c w => qGetD c.metricas mk 0 * w)
              (c0 :: resto) (pesosNormalizados (c0 :: resto))).sum)) := by
    intro claves
    unfold agregarMetricasGen
    refine List.map_congr_left (fun mk _ => ?_)
    rw [npAverage_pesos_uno _ _ hsum, List.zipWith_map_left]
  constructor
  · simp [agregarModeloGenerico, bind, Except.bind, hpa, Except.map, pure, Except.pure]
  · simp only [agregarModeloGenerico, bind, Except.bind, hpa, Except.map, pure, Except.pure]
    by_cases hm : c0.metricas.isEmpty
    · simp [hm]
    · simp [hm, hmet (c0.metricas.map (fun p => p.1)), List.map_map]

/-- Witness for C8: two contributions defining "p" = 6 and one lacking it,
with weights 1/3 each: the aggregate is 6·(1/3) + 6·(1/3) + 0·(1/3) = 4. -/
theorem c8_testigo :
    (agregarModeloGenerico
      [{ id := "a", timestamp := "t", giro_hash := "abcdef1234567890"
         parametros := [("p", PVal.num 6)], metricas := [], num_muestras := 100 },
       { id := "b", timestamp := "t", giro_hash := "abcdef1234567890"
         parametros := [("p", PVal.num 6)], metricas := [], num_muestras := 100 },
       { id := "c", timestamp := "t", giro_hash := "abcdef1234567890"
         parametros := [], metricas := [], num_muestras := 100 }]).map
        (fun m => m.parametros_agregados)
      = Except.ok [("p", PVal.num
          ((List.zipWith (fun c w => valorEscalarO0 c "p" * w)
            [{ id := "a", timestamp := "t", giro_hash := "abcdef1234567890"
               parametros := [("p", PVal.num 6)], metricas := [], num_muestras := 100 },
             { id := "b", timestamp := "t", giro_hash := "abcdef1234567890"
               parametros := [("p", PVal.num 6)], metricas := [], num_muestras := 100 },
             { id := "c", timestamp := "t", giro_hash := "abcdef1234567890"
               parametros := [], metricas := [], num_muestras := 100 }]
            (pesosNormalizados
              [{ id := "a", timestamp := "t", giro_hash := "abcdef1234567890"
                 parametros := [("p", PVal.num 6)], metricas := [], num_muestras := 100 },
               { id := "b", timestamp := "t", giro_hash := "abcdef1234567890"
                 parametros := [("p", PVal.num 6)], metricas := [], num_muestras := 100 },
               { id := "c", timestamp := "t", giro_hash := "abcdef1234567890"
                 parametros := [], metricas := [], num_muestras := 100 }])).sum))] :=
  (c8_clave_faltante_cero "p" 6
    { id := "a", timestamp := "t", giro_hash := "abcdef1234567890"
      parametros := [("p", PVal.num 6)], metricas := [], num_muestras := 100 }
    [{ id := "b", timestamp := "t", giro_hash := "abcdef1234567890"
       parametros := [("p", PVal.num 6)], metricas := [], num_muestras := 100 },
     { id := "c", timestamp := "t", giro_hash := "abcdef1234567890"
       parametros := [], metricas := [], num_muestras := 100 }]
    rfl
    (by
      intro c hc
      simp only [List.mem_cons, List.not_mem_nil, or_false] at hc
      rcases hc with rfl | rfl
      · right
        exact ⟨6, rfl⟩
      · left
        rfl)
    (by decide)).1

/-! ## Noise-injection frame lemmas (C7) -/

/-- Key preservation of the noise loop. -/
lemma ruidoParams_claves (ruido : ℕ → ℚ) : ∀ (i : ℕ) (ps : Params),
    (aplicarRuidoParams ruido i ps).map (fun p => p.1) = ps.map (fun p => p.1) := by
  intro i ps
  induction ps generalizing i with
  | nil => rfl
  | cons par resto ih =>
    obtain ⟨k, v⟩ := par
    cases v with
    | num x => simp [aplicarRuidoParams, ih]
    | str s => simp [aplicarRuidoParams, ih]
    | lst xs =>
      by_cases hx : xs.all esNum
      · simp [aplicarRuidoParams, hx, ih]
      · simp [aplicarRuidoParams, hx, ih]

/-- C7: the privacy-noise pass perturbs exactly the numeric entries of
the aggregated parameters — one draw added to each scalar, one draw per
element of each all-numeric vector — and leaves the model type,
contribution count, aggregated metrics, timestamp, confidence, version,
parameter keys and every non-numeric parameter entry unchanged. -/
theorem c7_ruido_marco (ruido : ℕ → ℚ) (m : ModeloAgregado) :
    ((aplicarRuidoDiferencial ruido m).tipo_modelo = m.tipo_modelo
      ∧ (aplicarRuidoDiferencial ruido m).num_contribuciones = m.num_contribuciones
      ∧ (aplicarRuidoDiferencial ruido m).metricas_agregadas = m.metricas_agregadas
      ∧ (aplicarRuidoDiferencial ruido m).timestamp_agregacion = m.timestamp_agregacion
      ∧ (aplicarRuidoDiferencial ruido m).confianza = m.confianza
      ∧ (aplicarRuidoDiferencial ruido m).version = m.version)
    ∧ (aplicarRuidoDiferencial ruido m).parametros_agregados
        = aplicarRuidoParams ruido 0 m.parametros_agregados
    ∧ (∀ (i : ℕ) (ps : Params),
        (aplicarRuidoParams ruido i ps).map (fun p => p.1) = ps.map (fun p => p.1))
    ∧ (∀ (i : ℕ) (k : String) (x : ℚ) (resto : Params),
        aplicarRuidoParams ruido i ((k, PVal.num x) :: resto)
          = (k, PVal.num (x + ruido i)) :: aplicarRuidoParams ruido (i + 1) resto)
    ∧ (∀ (i : ℕ) (k : String) (xs : List PVal) (resto : Params), xs.all esNum = true →
        aplicarRuidoParams ruido i ((k, PVal.lst xs) :: resto)
          = (k, PVal.lst (agregarRuidoVec ruido i xs))
            :: aplicarRuidoParams ruido (i + xs.length) resto)
    ∧ (∀ (i : ℕ) (x : ℚ) (xs : List PVal),
        agregarRuidoVec ruido i (PVal.num x :: xs)
          = PVal.num (x + ruido i) :: agregarRuidoVec ruido (i + 1) xs)
    ∧ (∀ (i : ℕ) (k : String) (v : PVal) (resto : Params),
        esNum v = false → esListaNumerica v = false →
        aplicarRuidoParams ruido i ((k, v) :: resto)
          = (k, v) :: aplicarRuidoParams ruido i resto) := by
  refine ⟨⟨rfl, rfl, rfl, rfl, rfl, rfl⟩, rfl, ruidoParams_claves ruido, ?_, ?_, ?_, ?_⟩
  · intro i k x resto
    rfl
  · intro i k xs resto hx
    simp [aplicarRuidoParams, hx]
  · intro i x xs
    rfl
  · intro i k v resto hn hl
    cases v with
    | num x => simp [esNum] at hn
    | str s => rfl
    | lst xs =>
      have hx : xs.all esNum = false := by
        simpa [esListaNumerica] using hl
      simp [aplicarRuidoParams, hx]

/-- Witness for C7 on a concrete model with a scalar, a string and a
numeric-vector parameter, under the draw stream j ↦ j + 1. -/
theorem c7_testigo :
    (aplicarRuidoDiferencial (fun j => (j : ℚ) + 1)
        { tipo_modelo := "generico"
          parametros_agregados :=
            [("a", PVal.num 2), ("s", PVal.str "x"), ("v", PVal.lst [PVal.num 5, PVal.num 7])]
          num_contribuciones := 3
          metricas_agregadas := [("mse", 1)]
          timestamp_agregacion := ""
          confianza := 1/2
          version := "1.0" }).confianza = 1/2
    ∧ aplicarRuidoParams (fun j => (j : ℚ) + 1) 0
        [("s", PVal.str "x"), ("a", PVal.num 2)]
        = [("s", PVal.str "x"), ("a", PVal.num (2 + ((0 : ℚ) + 1)))] := by
  constructor
  · exact (c7_ruido_marco (fun j => (j : ℚ) + 1)
      { tipo_modelo := "generico"
        parametros_agregados :=
          [("a", PVal.num 2), ("s", PVal.str "x"), ("v", PVal.lst [PVal.num 5, PVal.num 7])]
        num_contribuciones := 3
        metricas_agregadas := [("mse", 1)]
        timestamp_agregacion := ""
        confianza := 1/2
        version := "1.0" }).1.2.2.2.2.1
  · rw [(c7_ruido_marco (fun j => (j : ℚ) + 1)
      { tipo_modelo := "generico"
        parametros_agregados := []
        num_contribuciones := 3
        metricas_agregadas := []
        timestamp_agregacion := ""
        confianza := 1/2
        version := "1.0" }).2.2.2.2.2.2 0 "s" (PVal.str "x")
      [("a", PVal.num 2)] rfl rfl]
    rfl

/-! ## Shape-mismatch lemmas (C4) -/

/-- If the elementwise sum over a list of vectors succeeds, every vector
in the list has the length of the result. -/
lemma npSumAxis0_ok_longitudes (vs : List (List ℚ)) (s : List ℚ)
    (h : npSumAxis0 vs = Except.ok s) : ∀ v ∈ vs, v.length = s.length := by
  induction vs generalizing s with
  | nil => simp [npSumAxis0] at h
  | cons v resto ih =>
    cases resto with
    | nil =>
      simp only [npSumAxis0, Except.ok.injEq] at h
      subst h
      intro u hu
      simp only [List.mem_singleton] at hu
      rw [hu]
    | cons w resto2 =>
      rw [show npSumAxis0 (v :: w :: resto2) = do
            let s ← npSumAxis0 (w :: resto2)
            sumarVectores v s from rfl] at h
      cases hrec : npSumAxis0 (w :: resto2) with
      | error e => rw [hrec] at h; simp [Except.bind, bind] at h
      | ok s' =>
        rw [hrec] at h
        simp only [bind, Except.bind] at h
        unfold sumarVectores at h
        by_cases hlen : v.length = s'.length
        · rw [if_pos hlen] at h
          simp only [Except.ok.injEq] at h
          subst h
          have hsl : (List.zipWith (fun x y => x + y) v s').length = v.length := by
            rw [List.length_zipWith, hlen, Nat.min_self]
          intro u hu
          rcases List.mem_cons.1 hu with rfl | hu'
          · omega
          · have := ih s' hrec u hu'
            omega
        · rw [if_neg hlen] at h
          cases h

/-- Scaling each vector by its weight preserves the list of lengths. -/
lemma longitudes_escaladas (vs : List (List ℚ)) (ws : List ℚ) (h : vs.length = ws.length) :
    (List.zipWith (fun xs w => xs.map (fun x => x * w)) vs ws).map List.length
      = vs.map List.length := by
  induction vs generalizing ws with
  | nil => simp
  | cons v resto ih =>
    cases ws with
    | nil => simp at h
    | cons w ws' =>
      simp only [List.zipWith_cons_cons, List.map_cons, List.length_map, List.cons.injEq,
        true_and]
      exact ih ws' (by simpa using h)

/-- Evaluating the per-contribution coefficient-vector extraction when
every contribution holds a numeric vector. -/
lemma extraerVectores_de (k : String) (cs : List Contribucion) (vs : List (List ℚ))
    (h : cs.map (fun c => (dictGet c.parametros k).bind asNumList) = vs.map some) :
    extraerVectoresClave k cs = Except.ok vs := by
  induction cs generalizing vs with
  | nil =>
    cases vs with
    | nil => rfl
    | cons v vs' => simp at h
  | cons c resto ih =>
    cases vs with
    | nil => simp at h
    | cons v vs' =>
      simp only [List.map_cons, List.cons.injEq] at h
      obtain ⟨h1, h2⟩ := h
      cases hd : dictGet c.parametros k with
      | none => rw [hd] at h1; simp at h1
      | some pv =>
        rw [hd] at h1
        simp only [Option.some_bind] at h1
        simp [extraerVectoresClave, hd, h1, ih vs' h2, Except.map]

/-- The three contributions of the C4 counterexample: coefficient vectors
of lengths 1, 2 and 1, which all pass the anonymization gate. -/
def ejemploC4 : List Contribucion :=
  [{ id := "a", timestamp := "t", giro_hash := "abcdef1234567890"
     parametros := [("coeficientes", PVal.lst [PVal.num 1, PVal.num 2])]
     metricas := [], num_muestras := 100 },
   { id := "b", timestamp := "t", giro_hash := "abcdef1234567890"
     parametros := [("coeficientes", PVal.lst [PVal.num 1, PVal.num 2, PVal.num 3])]
     metricas := [], num_muestras := 100 },
   { id := "c", timestamp := "t", giro_hash := "abcdef1234567890"
     parametros := [("coeficientes", PVal.lst [PVal.num 4, PVal.num 5])]
     metricas := [], num_muestras := 100 }]

/-- C4 is false as stated: with coefficient vectors of lengths 2, 3, 2
the linear-style aggregation does not complete with the key dropped — it
produces no aggregated model at all (the ragged `np.sum(..., axis=0)`
raises and the whole aggregation aborts). -/
theorem c4_contraejemplo : esOk (agregarModeloPrediccion ejemploC4) = false := by rfl

/-- C4 (amended): in the linear-style aggregation, coefficient vectors of
mismatched lengths raise a shape error that aborts the entire aggregation
— the result is an error, not an aggregate with that key dropped — and
the processing step that triggered it leaves the stored snapshot
unchanged. -/
theorem c4_desajuste_aborta
    (c0 : Contribucion) (resto : List Contribucion) (vs : List (List ℚ))
    (hvs : (c0 :: resto).map (fun c => (dictGet c.parametros "coeficientes").bind asNumList)
      = vs.map some)
    (hmis : ∃ a ∈ vs, ∃ b ∈ vs, a.length ≠ b.length) :
    esOk (agregarModeloPrediccion (c0 :: resto)) = false
    ∧ (∀ (st : EstadoTipo) (p : Paso),
        st.contribuciones ++ [aContribucion p.contribucion_id p.modelo] = c0 :: resto →
        p.modelo.tipo_modelo = "prediccion_demanda" →
        (procesarModeloAnonimo st p).modeloActivo = st.modeloActivo) := by
  have hext := extraerVectores_de "coeficientes" (c0 :: resto) vs hvs
  have hlvs : vs.length = resto.length + 1 := by
    have hlen := congrArg List.length hvs
    simpa using hlen.symm
  have hlp : (pesosNormalizados (c0 :: resto)).length = resto.length + 1 := by
    simp [pesosNormalizados]
  have hCerr : ∀ s, agregarCoeficientes (c0 :: resto) (pesosNormalizados (c0 :: resto))
      ≠ Except.ok s := by
    intro s hC
    unfold agregarCoeficientes at hC
    rw [hext] at hC
    simp only [bind, Except.bind] at hC
    have hlens := npSumAxis0_ok_longitudes _ s hC
    have hml := longitudes_escaladas vs (pesosNormalizados (c0 :: resto)) (by omega)
    obtain ⟨a, ha, b, hb, hne⟩ := hmis
    have hla : a.length = s.length := by
      have hmem : a.length ∈ vs.map List.length := List.mem_map_of_mem _ ha
      rw [← hml] at hmem
      obtain ⟨u, hu, hul⟩ := List.mem_map.1 hmem
      rw [← hul]
      exact hlens u hu
    have hlb : b.length = s.length := by
      have hmem : b.length ∈ vs.map List.length := List.mem_map_of_mem _ hb
      rw [← hml] at hmem
      obtain ⟨u, hu, hul⟩ := List.mem_map.1 hmem
      rw [← hul]
      exact hlens u hu
    omega
  have hnotok : esOk (agregarModeloPrediccion (c0 :: resto)) = false := by
    obtain ⟨v, vs', rfl⟩ : ∃ v vs', vs = v :: vs' := by
      cases vs with
      | nil => simp at hlvs
      | cons v vs' => exact ⟨v, vs', rfl⟩
    have hhead : (dictGet c0.parametros "coeficientes").bind asNumList = some v := by
      simp only [List.map_cons, List.cons.injEq] at hvs
      exact hvs.1
    have hsome : (dictGet c0.parametros "coeficientes").isSome = true := by
      cases hd : dictGet c0.parametros "coeficientes" with
      | none => rw [hd] at hhead; simp at hhead
      | some pv => rfl
    cases hC : agregarCoeficientes (c0 :: resto) (pesosNormalizados (c0 :: resto)) with
    | ok s => exact (hCerr s hC).elim
    | error e =>
      simp [agregarModeloPrediccion, hsome, hC, bind, Except.bind, Except.map, esOk]
  refine ⟨hnotok, ?_⟩
  intro st p hctr htipo
  unfold procesarModeloAnonimo
  rw [hctr, htipo]
  by_cases h3 : 3 ≤ (c0 :: resto).length
  · rw [if_pos h3]
    cases hA : agregarModeloPrediccion (c0 :: resto) with
    | ok m => rw [hA] at hnotok; simp [esOk] at hnotok
    | error e =>
      simp [agregarModelo, hA]
  · rw [if_neg h3]

/-- Witness for the amended C4 at the concrete ragged coefficient vectors
[1, 2], [1, 2, 3], [4, 5]. -/
theorem c4_testigo : esOk (agregarModeloPrediccion ejemploC4) = false :=
  (c4_desajuste_aborta
    { id := "a", timestamp := "t", giro_hash := "abcdef1234567890"
      parametros := [("coeficientes", PVal.lst [PVal.num 1, PVal.num 2])]
      metricas := [], num_muestras := 100 }
    [{ id := "b", timestamp := "t", giro_hash := "abcdef1234567890"
       parametros := [("coeficientes", PVal.lst [PVal.num 1, PVal.num 2, PVal.num 3])]
       metricas := [], num_muestras := 100 },
     { id := "c", timestamp := "t", giro_hash := "abcdef1234567890"
       parametros := [("coeficientes", PVal.lst [PVal.num 4, PVal.num 5])]
       metricas := [], num_muestras := 100 }]
    [[1, 2], [1, 2, 3], [4, 5]]
    rfl
    ⟨[1, 2], List.mem_cons_self _ _,
     [1, 2, 3], List.mem_cons_of_mem _ (List.mem_cons_self _ _), by decide⟩).1

/-! ## Contribution-store lemmas (C2) -/

/-- The stored contribution corresponding to one processing step. -/
def contribDe (p : Paso) : Contribucion := aContribucion p.contribucion_id p.modelo

/-- Running a concatenation of step lists is running them in sequence. -/
lemma correr_append (st : EstadoTipo) (ps qs : List Paso) :
    correr st (ps ++ qs) = correr (correr st ps) qs := by
  induction ps generalizing st with
  | nil => rfl
  | cons p ps' ih => simp [correr, ih]

/-- The contribution list after a run is the old list plus one stored
contribution per step, in order. -/
lemma correr_contribuciones (st : EstadoTipo) (ps : List Paso) :
    (correr st ps).contribuciones = st.contribuciones ++ ps.map contribDe := by
  induction ps generalizing st with
  | nil => simp [correr]
  | cons p ps' ih =>
    rw [correr, ih]
    unfold procesarModeloAnonimo
    by_cases h3 : 3 ≤ (st.contribuciones ++ [aContribucion p.contribucion_id p.modelo]).length
    · rw [if_pos h3]
      cases hA : agregarModelo p.modelo.tipo_modelo
          (st.contribuciones ++ [aContribucion p.contribucion_id p.modelo]) with
      | ok m => simp [contribDe]
      | error e => simp [contribDe]
    · rw [if_neg h3]
      simp [contribDe]

/-- Characterization of when an aggregated snapshot exists after a run
from the initial state: exactly when some prefix of length ≥ 3 has a
succeeding aggregation. -/
lemma correr_activo_car (tipo : String) (ps : List Paso)
    (htipo : ∀ p ∈ ps, p.modelo.tipo_modelo = tipo) :
    (correr estadoInicial ps).modeloActivo.isSome = true
      ↔ ∃ k, 3 ≤ k ∧ k ≤ ps.length
          ∧ esOk (agregarModelo tipo ((ps.take k).map contribDe)) = true := by
  induction ps using List.reverseRecOn with
  | nil =>
    simp only [correr, estadoInicial, Option.isSome_none, List.length_nil]
    constructor
    · intro h
      cases h
    · rintro ⟨k, hk3, hkle, hok⟩
      omega
  | append_singleton ps p ih =>
    have htipo' : ∀ q ∈ ps, q.modelo.tipo_modelo = tipo := by
      intro q hq
      exact htipo q (List.mem_append_left _ hq)
    have htp : p.modelo.tipo_modelo = tipo :=
      htipo p (List.mem_append_right _ (List.mem_singleton.2 rfl))
    rw [correr_append]
    have hst : (correr estadoInicial ps).contribuciones = ps.map contribDe := by
      rw [correr_contribuciones]
      simp [estadoInicial]
    show (procesarModeloAnonimo (correr estadoInicial ps) p).modeloActivo.isSome = true ↔ _
    unfold procesarModeloAnonimo
    rw [hst, htp]
    have hfull : ps.map contribDe ++ [aContribucion p.contribucion_id p.modelo]
        = ((ps ++ [p]).map contribDe) := by
      simp [contribDe]
    by_cases h3 : 3 ≤ (ps.map contribDe ++ [aContribucion p.contribucion_id p.modelo]).length
    · rw [if_pos h3]
      have h3' : 3 ≤ ps.length + 1 := by
        simpa using h3
      cases hA : agregarModelo tipo
          (ps.map contribDe ++ [aContribucion p.contribucion_id p.modelo]) with
      | ok m =>
        simp only [Option.isSome_some, true_iff]
        refine ⟨ps.length + 1, h3', by simp, ?_⟩
        have htake : ((ps ++ [p]).take (ps.length + 1)).map contribDe
            = (ps ++ [p]).map contribDe := by
          rw [List.take_of_length_le (by simp)]
        rw [htake, ← hfull, hA]
        rfl
      | error e =>
        simp only []
        rw [ih htipo']
        constructor
        · rintro ⟨k, hk3, hkle, hok⟩
          refine ⟨k, hk3, by simp; omega, ?_⟩
          rwa [List.take_append_of_le_length hkle]
        · rintro ⟨k, hk3, hkle, hok⟩
          have hkle' : k ≤ ps.length + 1 := by simpa using hkle
          rcases Nat.lt_or_ge k (ps.length + 1) with hlt | hge
          · have hkps : k ≤ ps.length := by omega
            refine ⟨k, hk3, hkps, ?_⟩
            rwa [List.take_append_of_le_length hkps] at hok
          · have hkeq : k = ps.length + 1 := by omega
            subst hkeq
            have htake : ((ps ++ [p]).take (ps.length + 1)).map contribDe
                = (ps ++ [p]).map contribDe := by
              rw [List.take_of_length_le (by simp)]
            rw [htake, ← hfull, hA] at hok
            simp [esOk] at hok
    · rw [if_neg h3]
      have h3' : ps.length + 1 < 3 := by
        simp only [List.length_append, List.length_map, List.length_singleton] at h3
        omega
      rw [ih htipo']
      constructor
      · rintro ⟨k, hk3, hkle, hok⟩
        exact ⟨k, hk3, by simp; omega, by rwa [List.take_append_of_le_length hkle]⟩
      · rintro ⟨k, hk3, hkle, hok⟩
        have : k ≤ ps.length + 1 := by simpa using hkle
        omega

/-- A processing step from a federated model, with the zero noise stream. -/
def pasoDe (m : ModeloFederado) (id_ : String) : Paso :=
  { modelo := m, contribucion_id := id_, ruido := fun _ => 0 }

/-- A validated linear-style contribution with the given coefficient
vector, used in the C2 counterexample. -/
def modeloPred (v : List PVal) : ModeloFederado :=
  { tipo_modelo := "prediccion_demanda"
    parametros := [("coeficientes", PVal.lst v)]
    giro_hash := "abcdef1234567890"
    timestamp := "t"
    metricas_validacion := []
    version_algoritmo := "1.0"
    num_muestras_entrenamiento := 100 }

/-- The three validated appends of the C2 counterexample: ragged
coefficient vectors for the linear-style model type. -/
def pasosC2 : List Paso :=
  [pasoDe (modeloPred [PVal.num 1, PVal.num 2]) "a",
   pasoDe (modeloPred [PVal.num 1, PVal.num 2, PVal.num 3]) "b",
   pasoDe (modeloPred [PVal.num 4, PVal.num 5]) "c"]

/-- C2 is false as stated: three validated appends for a fixed model type
reach the quorum of 3, yet no aggregated model exists — the fetch returns
the not-found signal — because the triggered aggregation aborts on the
ragged coefficient vectors. -/
theorem c2_contraejemplo :
    pasosC2.all (fun p => validarAnonimizacion p.modelo) = true
    ∧ pasosC2.all (fun p => p.modelo.tipo_modelo == "prediccion_demanda") = true
    ∧ (correr estadoInicial pasosC2).contribuciones.length = 3
    ∧ obtenerModeloAgregado (correr estadoInicial pasosC2) = none := by
  refine ⟨by rfl, by rfl, by rfl, by rfl⟩

/-- C2 (amended): for every sequence of validated appends of a fixed model
type, an aggregated model exists if and only if some prefix of length at
least the quorum 3 had a succeeding aggregation (so with fewer than 3
appends the fetch unconditionally returns the not-found signal), and any
append that reaches the quorum and aggregates successfully replaces the
stored snapshot wholesale with the noised aggregate of the full current
contribution list. -/
theorem c2_agregado_enmendado (tipo : String) (ps : List Paso)
    (hval : ∀ p ∈ ps, validarAnonimizacion p.modelo = true)
    (htipo : ∀ p ∈ ps, p.modelo.tipo_modelo = tipo) :
    ((obtenerModeloAgregado (correr estadoInicial ps)).isSome = true
      ↔ ∃ k, 3 ≤ k ∧ k ≤ ps.length
          ∧ esOk (agregarModelo tipo ((ps.take k).map contribDe)) = true)
    ∧ (ps.length < 3 → obtenerModeloAgregado (correr estadoInicial ps) = none)
    ∧ (∀ (p : Paso) (m : ModeloAgregado), p.modelo.tipo_modelo = tipo →
        3 ≤ ps.length + 1 →
        agregarModelo tipo ((ps ++ [p]).map contribDe) = Except.ok m →
        (correr estadoInicial (ps ++ [p])).modeloActivo
          = some (aplicarRuidoDiferencial p.ruido m)) := by
  refine ⟨correr_activo_car tipo ps htipo, ?_, ?_⟩
  · intro hlen
    have hiff := correr_activo_car tipo ps htipo
    have hno : ¬∃ k, 3 ≤ k ∧ k ≤ ps.length
        ∧ esOk (agregarModelo tipo ((ps.take k).map contribDe)) = true := by
      rintro ⟨k, hk3, hkle, _⟩
      omega
    have : (correr estadoInicial ps).modeloActivo.isSome = false := by
      cases hS : (correr estadoInicial ps).modeloActivo.isSome with
      | false => rfl
      | true => exact absurd (hiff.1 hS) hno
    show (correr estadoInicial ps).modeloActivo = none
    exact Option.not_isSome_iff_eq_none.1 (by simp [this])
  · intro p m htp h3 hagg
    rw [correr_append]
    show (procesarModeloAnonimo (correr estadoInicial ps) p).modeloActivo = _
    unfold procesarModeloAnonimo
    have hst : (correr estadoInicial ps).contribuciones = ps.map contribDe := by
      rw [correr_contribuciones]
      simp [estadoInicial]
    rw [hst, htp]
    have hfull : ps.map contribDe ++ [aContribucion p.contribucion_id p.modelo]
        = (ps ++ [p]).map contribDe := by
      simp [contribDe]
    rw [hfull]
    have h3' : 3 ≤ ((ps ++ [p]).map contribDe).length := by
      simpa using h3
    rw [if_pos h3', hagg]

/-- Witness for the amended C2: two validated appends (below the quorum
of 3) leave the fetch returning the not-found signal. -/
theorem c2_testigo :
    obtenerModeloAgregado (correr estadoInicial
      [pasoDe (modeloPred [PVal.num 1]) "a",
       pasoDe (modeloPred [PVal.num 2]) "b"]) = none :=
  (c2_agregado_enmendado "prediccion_demanda"
    [pasoDe (modeloPred [PVal.num 1]) "a",
     pasoDe (modeloPred [PVal.num 2]) "b"]
    (by
      intro p hp
      simp only [List.mem_cons, List.not_mem_nil, or_false] at hp
      rcases hp with rfl | rfl
      · rfl
      · rfl)
    (by
      intro p hp
      simp only [List.mem_cons, List.not_mem_nil, or_false] at hp
      rcases hp with rfl | rfl
      · rfl
      · rfl)).2.1 (by decide)
